import Mathlib

/-!
Shallow embedding of the job-control and execution core of a small
interactive shell (src/main.c), together with theorems checking the
natural-language specification against it.

Conventions of the embedding:
- C `int` flags become `Nat` with C truthiness (`≠ 0` is true);
  raw wait statuses are the nonnegative 16-bit values delivered by
  `waitpid`, modelled as `Nat`.
- Stateful code becomes explicit state passing over the `shell_info`
  record and the global `stop_background` word.
- Fallible code (paths of `parse_line` that dereference a NULL token)
  returns `Option`: `none` marks the crash branch.
- OS outcomes that the program only observes (did `open`/`dup2`
  succeed, has the child already terminated, what status did the
  child produce) are passed in as parameters.
-/

namespace SmallShell

/-- The struct shell_info of main.c: per-command flags and filenames plus
the raw wait status of the last foreground child. -/
structure ShellInfo where
  background : Nat
  exit_status : Nat
  output_redirect : Nat
  input_redirect : Nat
  output_filename : String
  input_filename : String
deriving DecidableEq

/-- A fully zeroed shell_info value. -/
def shellInfoZero : ShellInfo :=
  { background := 0
    exit_status := 0
    output_redirect := 0
    input_redirect := 0
    output_filename := ""
    input_filename := "" }

/-- init_shell_info of main.c: zeroes background and the redirection
flags, clears both filename buffers, and touches nothing else (in
particular it never writes exit_status). -/
def init_shell_info (info : ShellInfo) : ShellInfo :=
  { info with
    background := 0
    input_redirect := 0
    output_redirect := 0
    input_filename := ""
    output_filename := "" }

/-- The session-start state of small_shell: the local struct shell_info
is declared without an initializer, so its fields hold indeterminate
stack contents; `junk` stands for those contents.  The first loop
iteration then runs init_shell_info on it. -/
def session_start (junk : ShellInfo) : ShellInfo := init_shell_info junk

/-- One loop iteration of small_shell resets only the shell_info record
(via init_shell_info); the global stop_background word is not touched by
the reset.  The session state is the pair (shell_info, stop_background). -/
def iteration_reset (s : ShellInfo × Nat) : ShellInfo × Nat :=
  (init_shell_info s.1, s.2)

/-- WIFEXITED of a raw wait status (glibc: low seven bits are zero). -/
def WIFEXITED (s : Nat) : Bool := s % 128 == 0

/-- WEXITSTATUS of a raw wait status (glibc: bits 8..15). -/
def WEXITSTATUS (s : Nat) : Nat := s / 256 % 256

/-- WTERMSIG of a raw wait status (glibc: low seven bits). -/
def WTERMSIG (s : Nat) : Nat := s % 128

/-- my_status of main.c: decode a raw wait status and print either the
exit value or the terminating signal (the printf formats end in a space
and a newline). -/
def my_status (exit_status : Nat) : String :=
  if WIFEXITED exit_status then
    "exit value " ++ toString (WEXITSTATUS exit_status) ++ " \n"
  else
    "terminated by signal " ++ toString (WTERMSIG exit_status) ++ " \n"

/-- The status built-in call site in execute_cmd: my_status(info->exit_status). -/
def status_builtin_output (info : ShellInfo) : String :=
  my_status info.exit_status

/-- One report of the reap loop in execute_cmd: the printf of
"background pid %d is done: " followed by the my_status call on the
reaped status. -/
def reap_report (corpse : Nat) (st : Nat) : String :=
  "background pid " ++ toString corpse ++ " is done: " ++ my_status st

/-- handle_SIG of main.c, the SIGTSTP handler: given the current value of
the global stop_background word, return its new value and the message
written to standard output (the code writes 50 and 30 bytes, which are
exactly the lengths of the two literals). -/
def handle_SIG (stop_background : Nat) : Nat × String :=
  if stop_background == 0 then
    (1, "Entering foreground-only mode (& is now ignored) \n")
  else
    (0, "Exiting foreground-only mode \n")

/-- Result of a Redirection Unit call inside the child: either the
descriptor was rebound and control continues toward execvp, or the child
printed a diagnostic and terminated via exit with the given status. -/
inductive RedirResult where
  | ok : RedirResult
  | fatal : Nat → String → RedirResult
deriving DecidableEq

/-- output_redirection of main.c, with the outcomes of open and dup2
passed in: open failure prints a diagnostic and exits 1; dup2 failure
prints a diagnostic and exits 1. -/
def output_redirection (openOk : Bool) (dupOk : Bool) : RedirResult :=
  if !openOk then RedirResult.fatal 1 "Output file could not be opened \n"
  else if !dupOk then RedirResult.fatal 1 "Output file could not be redirected"
  else RedirResult.ok

/-- input_redirection of main.c, with the outcomes of open and dup2
passed in: open failure prints a diagnostic and exits 1; dup2 failure
prints a diagnostic and then calls exit(0). -/
def input_redirection (openOk : Bool) (dupOk : Bool) : RedirResult :=
  if !openOk then RedirResult.fatal 1 "Input file could not be opened \n"
  else if !dupOk then RedirResult.fatal 0 "Input file could not be redirected"
  else RedirResult.ok

/-- The condition info->background && !stop_background evaluated by both
branches of other_cmd (C truthiness on int operands). -/
def effectively_background (info : ShellInfo) (stop_background : Nat) : Bool :=
  (info.background != 0) && (stop_background == 0)

/-- Which waitpid call the parent branch of other_cmd performs. -/
inductive WaitKind where
  | blocking : WaitKind
  | nohang : WaitKind
deriving DecidableEq

/-- What the child branch of other_cmd (case 0) sets up before execvp:
signal dispositions, messages printed, and the final binding of the
standard streams (none means the stream is left as inherited). -/
structure ChildSetup where
  sigtstp_ignored : Bool
  sigint_default : Bool
  outputs : List String
  stdin_bind : Option String
  stdout_bind : Option String
deriving DecidableEq

/-- The child branch of other_cmd, in source order: custom_IG ignores
SIGTSTP; if effectively background, print the background pid message and
bind any unredirected standard stream to /dev/null, otherwise restore
the default SIGINT disposition; then apply the explicit redirections
(input first, then output). -/
def child_branch (childPid : Nat) (info : ShellInfo) (stop_background : Nat) : ChildSetup :=
  let bg := effectively_background info stop_background
  let outs : List String :=
    if bg then ["background pid is " ++ toString childPid ++ " \n"] else []
  let stdout0 : Option String :=
    if bg && (info.output_redirect == 0) then some "/dev/null" else none
  let stdin0 : Option String :=
    if bg && (info.input_redirect == 0) then some "/dev/null" else none
  let stdin1 : Option String :=
    if info.input_redirect != 0 then some info.input_filename else stdin0
  let stdout1 : Option String :=
    if info.output_redirect != 0 then some info.output_filename else stdout0
  { sigtstp_ignored := true
    sigint_default := !bg
    outputs := outs
    stdin_bind := stdin1
    stdout_bind := stdout1 }

/-- What the parent branch of other_cmd (default case) does: which
waitpid it issues, on which pid, what it prints, and the resulting
info->exit_status.  `cstat` is the status the child produces;
`alreadyDone` tells whether the WNOHANG wait finds the child already
terminated (only then does it store a status). -/
structure ParentAct where
  wait : WaitKind
  waitTarget : Nat
  outputs : List String
  exit_status : Nat
deriving DecidableEq

/-- The parent branch of other_cmd: effectively background gets a
waitpid(spawnPid, ..., WNOHANG) and prints nothing; otherwise a blocking
waitpid(spawnPid, ..., 0) stores the child status and prints the decoded
status when it is nonzero. -/
def parent_branch (spawnPid cstat : Nat) (alreadyDone : Bool)
    (info : ShellInfo) (stop_background : Nat) : ParentAct :=
  if effectively_background info stop_background then
    { wait := WaitKind.nohang
      waitTarget := spawnPid
      outputs := []
      exit_status := if alreadyDone then cstat else info.exit_status }
  else
    { wait := WaitKind.blocking
      waitTarget := spawnPid
      outputs := if cstat ≠ 0 then [my_status cstat] else []
      exit_status := cstat }

/-- strtok_r tokenization with delimiter " ": accumulate the current
token in reverse in `cur`, emit maximal nonempty runs of non-space
characters. -/
def tokenizeChars : List Char → List Char → List String
  | [], cur => if cur.isEmpty then [] else [String.mk cur.reverse]
  | c :: rest, cur =>
    if c = ' ' then
      if cur.isEmpty then tokenizeChars rest []
      else String.mk cur.reverse :: tokenizeChars rest []
    else tokenizeChars rest (c :: cur)

/-- The token sequence strtok_r produces from a line split on " ". -/
def tokenize (line : String) : List String := tokenizeChars line.data []

/-- The loop of parse_line over the tokens after the first, in source
order of the if-else chain: "<" and ">" consume the following token as a
filename (and crash — none — when strtok_r returns NULL there); "&" sets
the background flag; "$$" appends the decimal pid; anything else is
appended to the argument list. -/
def parse_loop (pid : Nat) : List String → ShellInfo → List String →
    Option (List String × ShellInfo)
  | [], info, args => some (args, info)
  | t :: rest, info, args =>
    if t = "<" then
      match rest with
      | [] => none
      | fname :: rest2 =>
        parse_loop pid rest2
          { info with input_redirect := 1, input_filename := fname } args
    else if t = ">" then
      match rest with
      | [] => none
      | fname :: rest2 =>
        parse_loop pid rest2
          { info with output_redirect := 1, output_filename := fname } args
    else if t = "&" then
      parse_loop pid rest { info with background := 1 } args
    else if t = "$$" then
      parse_loop pid rest info (args ++ [toString pid])
    else
      parse_loop pid rest info (args ++ [t])

/-- parse_line of main.c: the first strtok_r call takes the first token
unconditionally into args[0]; when it returns NULL (a line with no
non-space character) the following strlen/strcpy dereference NULL, which
the embedding marks as none.  The remaining tokens go through the loop. -/
def parse_line (pid : Nat) (line : String) (info : ShellInfo) :
    Option (List String × ShellInfo) :=
  match tokenize line with
  | [] => none
  | t :: rest => parse_loop pid rest info [t]

/-- The newline stripping of get_input: strtok(buf, "\n") leaves the
buffer unchanged when it holds no token (only newlines or empty);
otherwise it terminates the buffer at the newline that follows the first
token, so the leading newlines and the first token remain. -/
def takeUntilNL : List Char → List Char
  | [] => []
  | c :: rest => if c = '\n' then [] else c :: takeUntilNL rest

/-- get_input of main.c reduced to its string effect: the raw fgets
buffer after the strtok newline strip, which is what parse_line then
receives. -/
def get_input_line (raw : String) : String :=
  let lead := raw.data.takeWhile (fun c => c = '\n')
  let rest := raw.data.dropWhile (fun c => c = '\n')
  match rest with
  | [] => raw
  | _ => String.mk (lead ++ takeUntilNL rest)

/-- Reference predicate for the amended C7: scanning the tokens after
the first exactly as the parse_line loop does, is a "&" token ever seen
in scan position (a token consumed as a redirection filename is not in
scan position)? -/
def background_token_seen : List String → Bool
  | [] => false
  | t :: rest =>
    if t = "<" ∨ t = ">" then
      match rest with
      | [] => false
      | _ :: rest2 => background_token_seen rest2
    else if t = "&" then
      true
    else
      background_token_seen rest

/-! Theorems.  Each claim of the specification gets one theorem below;
shared helper lemmas come first. -/

/-- Helper: the background field of the shell_info that the parse_line
loop returns is 1 exactly when a "&" token is seen in scan position,
and otherwise is the incoming background field. -/
theorem parse_loop_background (pid : Nat) (ts : List String) (info : ShellInfo)
    (args : List String) :
    ∀ args2 info2, parse_loop pid ts info args = some (args2, info2) →
      info2.background = if background_token_seen ts then 1 else info.background := by
  induction ts, info, args using parse_loop.induct pid with
  | case1 info args =>
    intro args2 info2 hp
    rw [parse_loop.eq_def] at hp
    simp at hp
    simp [background_token_seen.eq_def, ← hp.2]
  | case2 info args =>
    intro args2 info2 hp
    rw [parse_loop.eq_def] at hp
    simp at hp
  | case3 info args fname rest2 ih =>
    intro args2 info2 hp
    rw [parse_loop.eq_def] at hp
    simp at hp
    have := ih args2 info2 hp
    rw [background_token_seen.eq_def]
    simp [this]
  | case4 info args h =>
    intro args2 info2 hp
    rw [parse_loop.eq_def] at hp
    simp at hp
  | case5 info args fname rest2 h ih =>
    intro args2 info2 hp
    rw [parse_loop.eq_def] at hp
    simp at hp
    have := ih args2 info2 hp
    rw [background_token_seen.eq_def]
    simp [this]
  | case6 rest info args h1 h2 ih =>
    intro args2 info2 hp
    rw [parse_loop.eq_def] at hp
    simp at hp
    have := ih args2 info2 hp
    rw [background_token_seen.eq_def]
    simp [this]
  | case7 rest info args h1 h2 h3 ih =>
    intro args2 info2 hp
    rw [parse_loop.eq_def] at hp
    simp at hp
    have := ih args2 info2 hp
    rw [background_token_seen.eq_def]
    simp [this]
  | case8 t rest info args h1 h2 h3 h4 ih =>
    intro args2 info2 hp
    rw [parse_loop.eq_def] at hp
    simp [h1, h2, h3, h4] at hp
    have := ih args2 info2 hp
    rw [background_token_seen.eq_def]
    simp [h1, h2, h3, h4, this]

/-- Claim C1: while stop_background (foreground_only) is true, a command
whose background flag was requested is run as a foreground command: the
parent branch performs a blocking wait on that specific child, the
background-start announcement is not printed (the child branch prints
nothing), and the child restores the default interrupt disposition, the
foreground treatment. -/
theorem C1_foreground_only_forces_foreground
    (info : ShellInfo) (stop_background childPid cstat : Nat) (alreadyDone : Bool)
    (_hbg : info.background ≠ 0) (hsb : stop_background ≠ 0) :
    (parent_branch childPid cstat alreadyDone info stop_background).wait =
      WaitKind.blocking ∧
    (parent_branch childPid cstat alreadyDone info stop_background).waitTarget =
      childPid ∧
    (child_branch childPid info stop_background).outputs = [] ∧
    (child_branch childPid info stop_background).sigint_default = true := by
  have hbgf : effectively_background info stop_background = false := by
    simp [effectively_background, hsb]
  refine ⟨?_, ?_, ?_, ?_⟩ <;> simp [parent_branch, child_branch, hbgf]

/-- Witness for C1 at a concrete state: background requested (1),
stop_background set (1), child pid 7. -/
theorem C1_witness :
    (parent_branch 7 0 false { shellInfoZero with background := 1 } 1).wait =
      WaitKind.blocking ∧
    (parent_branch 7 0 false { shellInfoZero with background := 1 } 1).waitTarget = 7 ∧
    (child_branch 7 { shellInfoZero with background := 1 } 1).outputs = [] ∧
    (child_branch 7 { shellInfoZero with background := 1 } 1).sigint_default = true :=
  C1_foreground_only_forces_foreground { shellInfoZero with background := 1 } 1 7 0 false
    (by decide) (by decide)

/-- Claim C2: the suspend-signal handler is a strict two-state flip of
stop_background: a delivery while the flag is false (0) sets it to 1 and
writes the enter-mode message (the claimed text followed by a space and
newline), a delivery while it is true writes the exit-mode message and
sets it to 0; the new value is always 0 or 1 (no third state), and on
the reachable values 0 and 1 a second delivery restores the original
value. -/
theorem C2_handle_SIG_toggle (sb : Nat) :
    (sb = 0 → handle_SIG sb =
      (1, "Entering foreground-only mode (& is now ignored)" ++ " \n")) ∧
    (sb ≠ 0 → handle_SIG sb = (0, "Exiting foreground-only mode" ++ " \n")) ∧
    ((handle_SIG sb).1 = 0 ∨ (handle_SIG sb).1 = 1) ∧
    (sb = 0 ∨ sb = 1 → (handle_SIG (handle_SIG sb).1).1 = sb) := by
  by_cases h : sb = 0
  · subst h
    exact ⟨fun _ => by decide, fun h0 => absurd rfl h0, by decide, fun _ => by decide⟩
  · have hb : (sb == 0) = false := by simp [h]
    refine ⟨fun h0 => absurd h0 h, fun _ => by simp [handle_SIG, hb], ?_, ?_⟩
    · left
      simp [handle_SIG, hb]
    · intro hv
      rcases hv with h0 | h1
      · exact absurd h0 h
      · subst h1
        decide

/-- Witness for C2 at the concrete flag values 0 and 1. -/
theorem C2_witness :
    handle_SIG 0 = (1, "Entering foreground-only mode (& is now ignored)" ++ " \n") ∧
    handle_SIG 1 = (0, "Exiting foreground-only mode" ++ " \n") ∧
    (handle_SIG (handle_SIG 0).1).1 = 0 :=
  ⟨(C2_handle_SIG_toggle 0).1 rfl, (C2_handle_SIG_toggle 1).2.1 (by decide),
   (C2_handle_SIG_toggle 0).2.2.2 (Or.inl rfl)⟩

/-- Claim C3 counterexample: at a concrete effectively-background command
(background requested, stop_background 0, child pid 42), the parent
branch performs the non-blocking wait but prints nothing at all, so the
background-start announcement is not printed by the parent branch; it is
the child branch that prints the pid. -/
theorem C3_counterexample :
    (parent_branch 42 0 false { shellInfoZero with background := 1 } 0).wait =
      WaitKind.nohang ∧
    (parent_branch 42 0 false { shellInfoZero with background := 1 } 0).outputs = [] ∧
    (child_branch 42 { shellInfoZero with background := 1 } 0).outputs =
      ["background pid is 42 \n"] := by decide

/-- Claim C3 amended: for every effectively-background command, the
parent branch performs a non-blocking wait on that specific child and
prints nothing; the background-start announcement carrying the child's
pid is printed by the child branch itself. -/
theorem C3_amended_background_launch
    (info : ShellInfo) (stop_background childPid cstat : Nat) (alreadyDone : Bool)
    (hbg : effectively_background info stop_background = true) :
    (parent_branch childPid cstat alreadyDone info stop_background).wait =
      WaitKind.nohang ∧
    (parent_branch childPid cstat alreadyDone info stop_background).waitTarget =
      childPid ∧
    (parent_branch childPid cstat alreadyDone info stop_background).outputs = [] ∧
    (child_branch childPid info stop_background).outputs =
      ["background pid is " ++ toString childPid ++ " \n"] := by
  refine ⟨?_, ?_, ?_, ?_⟩ <;> simp [parent_branch, child_branch, hbg]

/-- Witness for the amended C3 at a concrete state: background requested,
stop_background 0, child pid 42. -/
theorem C3_amended_witness :
    (parent_branch 42 0 false { shellInfoZero with background := 1 } 0).wait =
      WaitKind.nohang ∧
    (parent_branch 42 0 false { shellInfoZero with background := 1 } 0).waitTarget = 42 ∧
    (parent_branch 42 0 false { shellInfoZero with background := 1 } 0).outputs = [] ∧
    (child_branch 42 { shellInfoZero with background := 1 } 0).outputs =
      ["background pid is " ++ toString 42 ++ " \n"] :=
  C3_amended_background_launch { shellInfoZero with background := 1 } 0 42 0 false
    (by decide)

/-- Claim C4: a command with neither explicit input nor explicit output
redirection gets both standard streams bound to /dev/null in the child
exactly when it is effectively background; when it is effectively
foreground both streams are left as inherited. -/
theorem C4_null_device_binding (info : ShellInfo) (stop_background childPid : Nat)
    (hin : info.input_redirect = 0) (hout : info.output_redirect = 0) :
    (effectively_background info stop_background = true →
      (child_branch childPid info stop_background).stdin_bind = some "/dev/null" ∧
      (child_branch childPid info stop_background).stdout_bind = some "/dev/null") ∧
    (effectively_background info stop_background = false →
      (child_branch childPid info stop_background).stdin_bind = none ∧
      (child_branch childPid info stop_background).stdout_bind = none) := by
  constructor <;> intro hbg <;> simp [child_branch, hbg, hin, hout]

/-- Witness for C4: a background command on pid 5 gets both streams bound
to /dev/null, a foreground command on pid 6 keeps both unchanged. -/
theorem C4_witness :
    ((child_branch 5 { shellInfoZero with background := 1 } 0).stdin_bind =
        some "/dev/null" ∧
      (child_branch 5 { shellInfoZero with background := 1 } 0).stdout_bind =
        some "/dev/null") ∧
    ((child_branch 6 shellInfoZero 0).stdin_bind = none ∧
      (child_branch 6 shellInfoZero 0).stdout_bind = none) :=
  ⟨(C4_null_device_binding { shellInfoZero with background := 1 } 0 5 rfl rfl).1
      (by decide),
   (C4_null_device_binding shellInfoZero 0 6 rfl rfl).2 (by decide)⟩

/-- Claim C5: my_status prints "exit value N" exactly when the wait
status says the process exited and "terminated by signal N" otherwise;
and the status built-in, the background-reap report and the immediate
foreground-abnormal report all produce their status text through the
same my_status decoder. -/
theorem C5_status_decoding (s corpse cstat childPid stop_background : Nat)
    (info : ShellInfo) (alreadyDone : Bool) :
    (WIFEXITED s = true →
      my_status s = "exit value " ++ toString (WEXITSTATUS s) ++ " \n") ∧
    (WIFEXITED s = false →
      my_status s = "terminated by signal " ++ toString (WTERMSIG s) ++ " \n") ∧
    status_builtin_output info = my_status info.exit_status ∧
    reap_report corpse s =
      "background pid " ++ toString corpse ++ " is done: " ++ my_status s ∧
    (effectively_background info stop_background = false → cstat ≠ 0 →
      (parent_branch childPid cstat alreadyDone info stop_background).outputs =
        [my_status cstat]) :=
  ⟨fun h => by simp [my_status, h], fun h => by simp [my_status, h], rfl, rfl,
   fun hbg hc => by simp [parent_branch, hbg, hc]⟩

/-- Witness for C5 at the concrete statuses 256 (exit value 1) and 2
(terminated by signal 2), with the foreground-abnormal report evaluated
on a foreground command. -/
theorem C5_witness :
    my_status 256 = "exit value " ++ toString (WEXITSTATUS 256) ++ " \n" ∧
    my_status 2 = "terminated by signal " ++ toString (WTERMSIG 2) ++ " \n" ∧
    (parent_branch 3 2 false shellInfoZero 0).outputs = [my_status 2] :=
  ⟨(C5_status_decoding 256 0 2 3 0 shellInfoZero false).1 (by decide),
   (C5_status_decoding 2 0 2 3 0 shellInfoZero false).2.1 (by decide),
   (C5_status_decoding 2 0 2 3 0 shellInfoZero false).2.2.2.2 (by decide) (by decide)⟩

/-- Claim C6 evaluated on the Redirection Unit: open failure terminates
the child with status 1 in both units and an output dup2 failure with
status 1, but an input dup2 failure calls exit(0) — a zero exit status
on a failure path, contradicting the claimed nonzero status (all four
failure paths do terminate the child after a diagnostic, so no failure
propagates to the parent). -/
theorem C6_input_dup_failure_exits_zero :
    output_redirection false true =
      RedirResult.fatal 1 "Output file could not be opened \n" ∧
    output_redirection true false =
      RedirResult.fatal 1 "Output file could not be redirected" ∧
    input_redirection false true =
      RedirResult.fatal 1 "Input file could not be opened \n" ∧
    input_redirection true false =
      RedirResult.fatal 0 "Input file could not be redirected" := by decide

/-- Claim C7 counterexample: for the line "ls & wc" the trailing token is
"wc", not "&", yet parse_line sets the background flag — a non-trailing
"&" does set the flag. -/
theorem C7_counterexample :
    (tokenize "ls & wc").getLast? = some "wc" ∧
    parse_line 9 "ls & wc" shellInfoZero =
      some (["ls", "wc"], { shellInfoZero with background := 1 }) := by decide

/-- Claim C7 amended: for every line the parser accepts, the
background-requested flag is set exactly when a token equal to "&" is
seen in scan position among the tokens after the first (a token consumed
as a redirection filename is not in scan position); the "&" need not be
trailing. -/
theorem C7_amended_background_flag (pid : Nat) (line : String)
    (r : List String × ShellInfo)
    (h : parse_line pid line shellInfoZero = some r) :
    r.2.background = if background_token_seen (tokenize line).tail then 1 else 0 := by
  obtain ⟨args2, info2⟩ := r
  unfold parse_line at h
  rcases hts : tokenize line with _ | ⟨t, rest⟩ <;> rw [hts] at h
  · simp at h
  · have := parse_loop_background pid rest shellInfoZero [t] args2 info2 h
    simpa [shellInfoZero] using this

/-- Witness for the amended C7 at the line "ls &". -/
theorem C7_amended_witness :
    ((["ls"], { shellInfoZero with background := 1 }) :
        List String × ShellInfo).2.background =
      if background_token_seen (tokenize "ls &").tail then 1 else 0 :=
  C7_amended_background_flag 9 "ls &"
    (["ls"], { shellInfoZero with background := 1 }) (by decide)

/-- Claim C8 evaluated at session start: init_shell_info — the only
initialization small_shell performs on its local struct shell_info —
never writes exit_status, so the value a first `status` command reads is
whatever indeterminate contents the declared-but-unset struct held; two
different junk contents give two different first `status` outputs, hence
no defined sentinel exists. -/
theorem C8_exit_status_indeterminate :
    (∀ junk : ShellInfo, (session_start junk).exit_status = junk.exit_status) ∧
    (session_start { shellInfoZero with exit_status := 256 }).exit_status = 256 ∧
    (session_start { shellInfoZero with exit_status := 2 }).exit_status = 2 ∧
    status_builtin_output (session_start { shellInfoZero with exit_status := 256 }) ≠
      status_builtin_output (session_start { shellInfoZero with exit_status := 2 }) :=
  ⟨fun _ => rfl, rfl, rfl, by decide⟩

/-- Claim C9: the per-iteration reset zeroes exactly the per-command
fields (background, the two redirection flags, the two filename buffers)
and leaves both exit_status and the global stop_background word
unchanged, so those two persist across loop iterations. -/
theorem C9_reset_preserves_session_state (info : ShellInfo) (stop_background : Nat) :
    (iteration_reset (info, stop_background)).2 = stop_background ∧
    (iteration_reset (info, stop_background)).1.exit_status = info.exit_status ∧
    (iteration_reset (info, stop_background)).1.background = 0 ∧
    (iteration_reset (info, stop_background)).1.input_redirect = 0 ∧
    (iteration_reset (info, stop_background)).1.output_redirect = 0 ∧
    (iteration_reset (info, stop_background)).1.input_filename = "" ∧
    (iteration_reset (info, stop_background)).1.output_filename = "" :=
  ⟨rfl, rfl, rfl, rfl, rfl, rfl, rfl⟩

/-- Claim C10: the raw terminal input of three spaces and a newline
passes through get_input's newline strip as the nonempty all-space line,
and parse_line on that line reaches the branch where the first strtok_r
call returns NULL and the following strlen/strcpy dereference it (none):
the parser is not total on the lines the caller can hand it. -/
theorem C10_spaces_line_crash :
    get_input_line "   \n" = "   " ∧
    "   " ≠ "" ∧
    (∀ c ∈ ("   ").data, c = ' ') ∧
    tokenize "   " = [] ∧
    parse_line 1 "   " shellInfoZero = none := by decide

end SmallShell
